import Mathlib

/-!
Shallow embedding of `packages/techdocs-addons/src/test-utils/test-utils.tsx`
(the `TechDocsAddonBuilder` test harness of the Backstage techdocs addon
system), together with theorems settling the specification claims about it.

Modelling conventions:
* JavaScript objects that the harness mutates in place (the module-level
  `defaultOptions` object aliased by every builder instance, and the jest
  mock registry) live in an explicit `World`; a builder holds the address of
  its options object.
* `a || b` on string-typed properties reached through optional chaining is
  `jsOrStr`: `undefined`/`null` are `none`, and the empty string is falsy.
* `a || b` on object-typed options (`metadata`, `entity`) falls back only on
  nullish values, since every JavaScript object - the empty object `{}`
  included - is truthy.
* `render()` is modelled as a function of the mounted document;
  `screen.getByTestId` raises (here: `Except.error`) when no node carries the
  test id, and also when several do.
-/

set_option autoImplicit false

namespace TechDocsTestUtils

/-- JavaScript `v || d` for a string property reached through optional
chaining: `none` models `undefined`/`null`, and a present empty string is
falsy, so both fall back to `d`. -/
def jsOrStr (v : Option String) (d : String) : String :=
  match v with
  | none => d
  | some s => if s = "" then d else s

/-- React elements, with enough structure to transcribe the JSX fixtures of
the source file. A React element is a JavaScript object, hence truthy. -/
inductive ReactElement where
  | fragment (children : List ReactElement)
  | elem (tag : String) (attrs : List (String × String)) (children : List ReactElement)
  | text (s : String)

/-- The `metadata` sub-object of an entity fixture. Each field may be absent
(`none`); a present field may still be the empty string. -/
structure EntityMeta where
  «namespace» : Option String := none
  name : Option String := none
deriving DecidableEq

/-- An entity fixture as supplied to `withEntity` (typed `any` in the
source): `kind` at top level, `namespace` and `name` under `metadata`, and
the `metadata` object itself may be absent. -/
structure Entity where
  kind : Option String := none
  metadata : Option EntityMeta := none
deriving DecidableEq

/-- A techdocs page-metadata fixture; the two fields that appear in the
source's `defaultMetadata`. -/
structure PageMetadata where
  site_name : Option String := none
  site_description : Option String := none
deriving DecidableEq

/-- `defaultMetadata` from the source. -/
def defaultMetadata : PageMetadata :=
  { site_name := some "Tech Docs", site_description := some "Tech Docs" }

/-- `defaultEntity` from the source. -/
def defaultEntity : Entity :=
  { kind := some "Component"
  , metadata := some { «namespace» := some "default", name := some "docs" } }

/-- `defaultDom` from the source: the simulated documentation page markup. -/
def defaultDom : ReactElement :=
  .elem "html" [("lang", "en")]
    [ .elem "head" [] []
    , .elem "body" []
        [ .elem "div" [("data-md-component", "container")]
            [ .elem "div" [("data-md-component", "navigation")] []
            , .elem "div" [("data-md-component", "toc")] []
            , .elem "div" [("data-md-component", "main")] [] ] ] ]

/-- An API ref: Backstage api refs are compared by JavaScript object
identity (`refs.includes(ref)` uses `===`), modelled as a numeric
identity. -/
abbrev ApiRef := Nat

/-- A stub implementation registered for an api ref, by identity. -/
abbrev ApiImpl := Nat

/-- `Apis = TestApiProviderProps['apis']`: an ordered list of
`[apiRef, stub]` pairs. -/
abbrev Apis := List (ApiRef × ApiImpl)

/-- `TechDocsAddonBuilderOptions` from the source. `entity` and `metadata`
are typed `any` there; `none` models a nullish value, `some` an object. -/
structure TechDocsAddonBuilderOptions where
  dom : ReactElement
  entity : Option Entity
  metadata : Option PageMetadata
  componentId : String
  readerPage : Option ReactElement := none
  apis : Apis
  path : String

/-- `defaultOptions` from the source: note that `entity` and `metadata` are
empty - but truthy - objects. -/
def defaultOptions : TechDocsAddonBuilderOptions :=
  { dom := .fragment []
  , entity := some {}
  , metadata := some {}
  , componentId := "docs"
  , apis := []
  , path := "" }

/-- `withApis(apis)`: filter existing entries whose ref occurs among the new
refs, then append the new pairs. -/
def withApis (apis : Apis) (o : TechDocsAddonBuilderOptions) :
    TechDocsAddonBuilderOptions :=
  let refs := apis.map Prod.fst
  { o with apis := (o.apis.filter fun p => !(refs.contains p.1)) ++ apis }

/-- `withDom(dom)`. -/
def withDom (dom : ReactElement) (o : TechDocsAddonBuilderOptions) :
    TechDocsAddonBuilderOptions :=
  { o with dom := dom }

/-- `withMetadata(metadata)`. -/
def withMetadata (metadata : Option PageMetadata)
    (o : TechDocsAddonBuilderOptions) : TechDocsAddonBuilderOptions :=
  { o with metadata := metadata }

/-- `withEntity(entity)`. -/
def withEntity (entity : Option Entity) (o : TechDocsAddonBuilderOptions) :
    TechDocsAddonBuilderOptions :=
  { o with entity := entity }

/-- `withReaderPage(readerPage)`. -/
def withReaderPage (readerPage : ReactElement)
    (o : TechDocsAddonBuilderOptions) : TechDocsAddonBuilderOptions :=
  { o with readerPage := some readerPage }

/-- `atPath(path)`. -/
def atPath (path : String) (o : TechDocsAddonBuilderOptions) :
    TechDocsAddonBuilderOptions :=
  { o with path := path }

/-- The resolved entity-name triple computed at the top of `build()`. -/
structure EntityName where
  «namespace» : String
  kind : String
  name : String
deriving DecidableEq

/-- `entityName` in `build()`:
`entity?.metadata?.namespace || defaultEntity.metadata.namespace` and
likewise for `kind` and `name`; the fallbacks are `defaultEntity`'s fields
`"default"`, `"Component"` and `"docs"`. -/
def entityName (entity : Option Entity) : EntityName where
  «namespace» := jsOrStr ((entity.bind Entity.metadata).bind EntityMeta.«namespace») "default"
  kind := jsOrStr (entity.bind Entity.kind) "Component"
  name := jsOrStr ((entity.bind Entity.metadata).bind EntityMeta.name) "docs"

/-- The `{loading, error, value}` shape installed on the metadata/entity
hooks. -/
structure HookResult (α : Type) where
  loading : Bool
  error : Option String
  value : α
deriving DecidableEq

/-- `this.options.metadata || { ...defaultMetadata }`: any object - the
empty default object included - is truthy; only a nullish `metadata` option
falls back to `defaultMetadata`. -/
def techDocsMetadataValue (metadata : Option PageMetadata) : PageMetadata :=
  match metadata with
  | some m => m
  | none => defaultMetadata

/-- `this.options.entity || { ...defaultEntity }`: likewise only a nullish
`entity` option falls back to `defaultEntity`. -/
def entityMetadataValue (entity : Option Entity) : Entity :=
  match entity with
  | some e => e
  | none => defaultEntity

/-- The reader DOM installed on `useTechDocsReaderDom`: an `html` element
whose `innerHTML` is `renderToStaticMarkup` of the configured fixture.
Serialization and re-parsing are framework code, kept abstract; a React
element is truthy, so `this.options.dom || defaultDom` is the configured
`dom` option. -/
inductive ReaderDom where
  | ofMarkup (fixture : ReactElement)

/-- `{ ...entityName, '*': this.options.path }` installed on `useParams`. -/
structure RouteParams where
  «namespace» : String
  kind : String
  name : String
  star : String
deriving DecidableEq

/-- `<Fragment key={index}>{addon}</Fragment>`. -/
structure KeyedFragment where
  key : Nat
  child : ReactElement

/-- The routed application tree returned by `build()`: the api pairs handed
to `TestApiProvider` (the spread copy of the options' array), the catch-all
route path, the configured reader page, and the keyed addon children of
`TechDocsAddons`. -/
structure BuiltTree where
  apis : Apis
  routePath : String
  readerPage : Option ReactElement
  addonChildren : List KeyedFragment

/-- Everything `build()` produces: the four mock-hook registrations and the
returned tree. -/
structure BuildResult where
  techDocsMetadata : HookResult PageMetadata
  entityMetadata : HookResult Entity
  readerDom : ReaderDom
  params : RouteParams
  tree : BuiltTree

/-- The body of `build()` as a function of the options it reads and the
addon list of the instance. -/
def build (o : TechDocsAddonBuilderOptions) (addons : List ReactElement) :
    BuildResult :=
  let apis := o.apis
  let name := entityName o.entity
  { techDocsMetadata :=
      { loading := false, error := none, value := techDocsMetadataValue o.metadata }
  , entityMetadata :=
      { loading := false, error := none, value := entityMetadataValue o.entity }
  , readerDom := ReaderDom.ofMarkup o.dom
  , params :=
      { «namespace» := name.«namespace», kind := name.kind, name := name.name
      , star := o.path }
  , tree :=
      { apis := apis
      , routePath := "*"
      , readerPage := o.readerPage
      , addonChildren := addons.enum.map fun p => { key := p.1, child := p.2 } } }

/-- The jest mock registry of `./mocks`: the return value installed on each
mocked hook by `mockReturnValue`, `none` before any installation. -/
structure MockRegistry where
  techDocsMetadata : Option (HookResult PageMetadata) := none
  entityMetadata : Option (HookResult Entity) := none
  readerDom : Option ReaderDom := none
  params : Option RouteParams := none

/-- The mutable module state: the store of options objects (a JavaScript
object reference is an address into it) and the mock registry. Address `0`
holds the module-level `defaultOptions` object. -/
structure World where
  store : List TechDocsAddonBuilderOptions
  mocks : MockRegistry

/-- The module as loaded: one options object, `defaultOptions`, and an empty
mock registry. -/
def World.init : World :=
  { store := [defaultOptions], mocks := {} }

/-- Address of the module-level `defaultOptions` object. -/
def defaultOptionsAddr : Nat := 0

/-- A `TechDocsAddonBuilder` instance. The class-field initializer
`private options: TechDocsAddonBuilderOptions = defaultOptions` stores a
reference to the module-level `defaultOptions` object - the source makes no
copy - so `optionsRef` is that shared address for every instance. -/
structure Builder where
  optionsRef : Nat
  addons : List ReactElement

/-- `TechDocsAddonBuilder.buildAddonsInTechDocs(addons)` /
`new TechDocsAddonBuilder(addons)`: stores the addon list; the options field
initializer aliases `defaultOptions`. -/
def buildAddonsInTechDocs (addons : List ReactElement) : Builder :=
  { optionsRef := defaultOptionsAddr, addons := addons }

/-- Replace the element at an address by the image of an in-place update;
out-of-range addresses are untouched. -/
def updateAt {α : Type} : List α → Nat → (α → α) → List α
  | [], _, _ => []
  | a :: l, 0, f => f a :: l
  | a :: l, Nat.succ n, f => a :: updateAt l n f

/-- Dereference a builder's options object (`this.options`). -/
def World.getOptions (w : World) (b : Builder) : TechDocsAddonBuilderOptions :=
  w.store.getD b.optionsRef defaultOptions

/-- Mutate a builder's options object in place (`this.options.x = ...`). -/
def World.modifyOptions (w : World) (b : Builder)
    (f : TechDocsAddonBuilderOptions → TechDocsAddonBuilderOptions) : World :=
  { w with store := updateAt w.store b.optionsRef f }

/-- `builder.withApis(apis)` acting on the module state. -/
def withApisW (b : Builder) (apis : Apis) (w : World) : World :=
  w.modifyOptions b (withApis apis)

/-- `builder.withDom(dom)` acting on the module state. -/
def withDomW (b : Builder) (dom : ReactElement) (w : World) : World :=
  w.modifyOptions b (withDom dom)

/-- `builder.withMetadata(metadata)` acting on the module state. -/
def withMetadataW (b : Builder) (metadata : Option PageMetadata) (w : World) :
    World :=
  w.modifyOptions b (withMetadata metadata)

/-- `builder.withEntity(entity)` acting on the module state. -/
def withEntityW (b : Builder) (entity : Option Entity) (w : World) : World :=
  w.modifyOptions b (withEntity entity)

/-- `builder.withReaderPage(readerPage)` acting on the module state. -/
def withReaderPageW (b : Builder) (readerPage : ReactElement) (w : World) :
    World :=
  w.modifyOptions b (withReaderPage readerPage)

/-- `builder.atPath(path)` acting on the module state. -/
def atPathW (b : Builder) (path : String) (w : World) : World :=
  w.modifyOptions b (atPath path)

/-- `builder.build()` acting on the module state: reads the options object
(never writes it), installs the four mock return values, and returns the
tree bundle. -/
def buildW (b : Builder) (w : World) : BuildResult × World :=
  let r := build (w.getOptions b) b.addons
  ( r
  , { w with mocks :=
        { techDocsMetadata := some r.techDocsMetadata
        , entityMetadata := some r.entityMetadata
        , readerDom := some r.readerDom
        , params := some r.params } } )

/-- A node of the mounted document: its `data-testid` attribute, the shadow
root attached to it (`none` when the element has no shadow root; a shadow
root is identified by a number), and its children. -/
inductive DomNode where
  | node (testId : Option String) (shadow : Option Nat) (children : List DomNode)

/-- The shadow root attached to a node (`element.shadowRoot`, `null` when
absent). -/
def DomNode.shadowRoot : DomNode → Option Nat
  | .node _ s _ => s

mutual

/-- All nodes of the document, in document order, whose `data-testid` equals
the query. -/
def collectByTestId (id : String) : DomNode → List DomNode
  | .node t s children =>
      (if t = some id then [DomNode.node t s children] else []) ++
        collectByTestIdList id children

/-- `collectByTestId` over a child list. -/
def collectByTestIdList (id : String) : List DomNode → List DomNode
  | [] => []
  | n :: ns => collectByTestId id n ++ collectByTestIdList id ns

end

/-- Why a `getBy*` query raised. -/
inductive QueryError where
  | notFound
  | multipleFound
deriving DecidableEq

/-- `screen.getByTestId(id)`: the unique matching node; a `getBy*` query
raises when there is no match, and when there is more than one. -/
def getByTestId (doc : DomNode) (id : String) : Except QueryError DomNode :=
  match collectByTestId id doc with
  | [n] => .ok n
  | [] => .error .notFound
  | _ => .error .multipleFound

/-- What `render()` returns: the spread of `screen` (queries over the
mounted document) merged with the `shadowRoot` field. -/
structure RenderSurface where
  screen : DomNode
  shadowRoot : Option Nat

/-- The body of `render()` after mounting, as a function of the mounted
document: `screen.getByTestId('techdocs-native-shadowroot')` followed by
`{ ...screen, shadowRoot: shadowHost?.shadowRoot }`. A raised query error
propagates as `Except.error`. -/
def renderSurface (doc : DomNode) : Except QueryError RenderSurface :=
  match getByTestId doc "techdocs-native-shadowroot" with
  | .ok host => .ok { screen := doc, shadowRoot := host.shadowRoot }
  | .error e => .error e

/-! ## Helper lemmas -/

theorem jsOrStr_none (d : String) : jsOrStr none d = d := rfl

theorem jsOrStr_empty (d : String) : jsOrStr (some "") d = d := rfl

theorem jsOrStr_some {s : String} (d : String) (hs : s ≠ "") :
    jsOrStr (some s) d = s := by
  simp [jsOrStr, hs]

theorem updateAt_updateAt {α : Type} (l : List α) (i : Nat) (f g : α → α) :
    updateAt (updateAt l i f) i g = updateAt l i (fun a => g (f a)) := by
  induction l generalizing i with
  | nil => rfl
  | cons a t ih =>
    cases i with
    | zero => rfl
    | succ n => simp [updateAt, ih]

theorem getD_updateAt {α : Type} (l : List α) (i : Nat) (f : α → α) (d : α)
    (h : i < l.length) : (updateAt l i f).getD i d = f (l.getD i d) := by
  induction l generalizing i with
  | nil => simp at h
  | cons a t ih =>
    cases i with
    | zero => rfl
    | succ n => exact ih n (Nat.lt_of_succ_lt_succ h)

theorem find?_append_none {α : Type} (f : α → Bool) (l1 l2 : List α)
    (h : l1.find? f = none) : (l1 ++ l2).find? f = l2.find? f := by
  induction l1 with
  | nil => rfl
  | cons a t ih =>
    by_cases hf : f a = true
    · rw [List.find?_cons_of_pos _ hf] at h
      exact absurd h (by simp)
    · rw [List.find?_cons_of_neg _ hf] at h
      rw [List.cons_append, List.find?_cons_of_neg _ hf]
      exact ih h

/-! ## Claim theorems -/

/-- C1: the claim that every `TechDocsAddonBuilder` has its own fresh
`BuilderOptions` state fails on the code: the class-field initializer
`options = defaultOptions` aliases the module-level `defaultOptions` object
(no copy is made), so `atPath('/foo')` on one builder is observed by a
distinct builder whose path, per the claim, should stay the initial `""`. -/
theorem c1_options_shared_across_builders :
    ((atPathW (buildAddonsInTechDocs []) "/foo" World.init).getOptions
        (buildAddonsInTechDocs [ReactElement.text "some addon"])).path = "/foo" ∧
    defaultOptions.path = "" :=
  ⟨rfl, rfl⟩

/-- C2 counterexample: on a mounted document with no node tagged
`techdocs-native-shadowroot`, `render()` raises - `screen.getByTestId`
throws when no node matches - instead of returning a surface with
`shadowRoot: null` as the claim states. -/
theorem c2_counterexample :
    renderSurface (.node none none [.node (some "other") (some 7) []]) =
      .error .notFound := rfl

/-- C2 (amended): when the mounted tree contains no addon-hosting container
node, `render()` raises a not-found query error; the surface with
`shadowRoot: null` arises only when the unique container node exists but
has no shadow root attached. -/
theorem c2_render_raises_without_host (doc : DomNode) :
    (collectByTestId "techdocs-native-shadowroot" doc = [] →
      renderSurface doc = .error .notFound) ∧
    (∀ host, collectByTestId "techdocs-native-shadowroot" doc = [host] →
      host.shadowRoot = none →
      renderSurface doc = .ok { screen := doc, shadowRoot := none }) := by
  constructor
  · intro h
    simp [renderSurface, getByTestId, h]
  · intro host h hs
    simp [renderSurface, getByTestId, h, hs]

/-- C2 witness: a concrete document without the container makes `render()`
raise, and one whose unique container has no shadow root yields
`shadowRoot: null`. -/
theorem c2_witness :
    renderSurface (.node (some "nav") none []) = .error .notFound ∧
    renderSurface (.node (some "techdocs-native-shadowroot") none []) =
      .ok { screen := .node (some "techdocs-native-shadowroot") none []
          , shadowRoot := none } :=
  ⟨(c2_render_raises_without_host _).1 rfl,
   (c2_render_raises_without_host _).2 _ rfl rfl⟩

/-- C3 counterexample: the entity below is missing `kind` and supplies
`metadata.name` present but equal to `""`. The claim says a present field
keeps its supplied value, yet `build()` resolves `name` to `"docs"`, not
`""` - the `||` fallback fires on any falsy value. -/
theorem c3_counterexample :
    (Entity.mk none (some (EntityMeta.mk (some "custom") (some "")))).metadata.bind
        EntityMeta.name = some "" ∧
    (entityName (some (Entity.mk none
        (some (EntityMeta.mk (some "custom") (some "")))))).name = "docs" ∧
    ("docs" : String) ≠ "" :=
  ⟨rfl, rfl, by decide⟩

/-- C3 (amended): `build()` resolves the identity triple field by field: a
missing field independently takes its default (`"default"`, `"Component"`,
`"docs"`) and a present non-empty field keeps its supplied value; a present
empty-string field also takes the default, since the fallback is on
falsiness. The defaults are never substituted as a whole object. -/
theorem c3_entity_fallback_field_by_field (e : Entity) :
    ((e.metadata.bind EntityMeta.«namespace» = none →
        (entityName (some e)).«namespace» = "default") ∧
      ∀ s, e.metadata.bind EntityMeta.«namespace» = some s → s ≠ "" →
        (entityName (some e)).«namespace» = s) ∧
    ((e.kind = none → (entityName (some e)).kind = "Component") ∧
      ∀ s, e.kind = some s → s ≠ "" → (entityName (some e)).kind = s) ∧
    ((e.metadata.bind EntityMeta.name = none →
        (entityName (some e)).name = "docs") ∧
      ∀ s, e.metadata.bind EntityMeta.name = some s → s ≠ "" →
        (entityName (some e)).name = s) := by
  refine ⟨⟨fun h => ?_, fun s h hs => ?_⟩, ⟨fun h => ?_, fun s h hs => ?_⟩,
    ⟨fun h => ?_, fun s h hs => ?_⟩⟩
  · show jsOrStr (e.metadata.bind EntityMeta.«namespace») "default" = "default"
    rw [h]
    exact jsOrStr_none _
  · show jsOrStr (e.metadata.bind EntityMeta.«namespace») "default" = s
    rw [h]
    exact jsOrStr_some _ hs
  · show jsOrStr e.kind "Component" = "Component"
    rw [h]
    exact jsOrStr_none _
  · show jsOrStr e.kind "Component" = s
    rw [h]
    exact jsOrStr_some _ hs
  · show jsOrStr (e.metadata.bind EntityMeta.name) "docs" = "docs"
    rw [h]
    exact jsOrStr_none _
  · show jsOrStr (e.metadata.bind EntityMeta.name) "docs" = s
    rw [h]
    exact jsOrStr_some _ hs

/-- C3 witness: an entity with `kind` and `name` supplied (non-empty) and
`namespace` absent resolves to the supplied `kind`/`name` and the default
namespace. -/
theorem c3_witness :
    (entityName (some (Entity.mk (some "API")
        (some (EntityMeta.mk none (some "my-docs")))))).«namespace» = "default" ∧
    (entityName (some (Entity.mk (some "API")
        (some (EntityMeta.mk none (some "my-docs")))))).kind = "API" ∧
    (entityName (some (Entity.mk (some "API")
        (some (EntityMeta.mk none (some "my-docs")))))).name = "my-docs" :=
  ⟨(c3_entity_fallback_field_by_field _).1.1 rfl,
   (c3_entity_fallback_field_by_field _).2.1.2 "API" rfl (by decide),
   (c3_entity_fallback_field_by_field _).2.2.2 "my-docs" rfl (by decide)⟩

/-- C4: calling `withApis(A)` then `withApis(B)` is last-write-wins, from
any prior api state: (i) every surviving entry whose ref occurs in `B` is an
entry of `B`; (ii) the surviving entries whose refs occur in `A` but not in
`B` are exactly `A`'s such entries in `A`'s original relative order;
(iii) the result ends with the entries of `B` in order; (iv) from the
initial empty api list the result is exactly `A` filtered of `B`'s refs
followed by `B`; (v) looking up a ref occurring in `B` finds `B`'s entry. -/
theorem c4_with_apis_last_write_wins (s0 : TechDocsAddonBuilderOptions) (A B : Apis) :
    (∀ p ∈ (withApis B (withApis A s0)).apis,
        (B.map Prod.fst).contains p.1 = true → p ∈ B) ∧
    ((withApis B (withApis A s0)).apis.filter
        (fun p => (A.map Prod.fst).contains p.1 && !((B.map Prod.fst).contains p.1)) =
      A.filter (fun p => !((B.map Prod.fst).contains p.1))) ∧
    (∃ pre, (withApis B (withApis A s0)).apis = pre ++ B) ∧
    (s0.apis = [] →
      (withApis B (withApis A s0)).apis =
        A.filter (fun p => !((B.map Prod.fst).contains p.1)) ++ B) ∧
    (∀ r, r ∈ B.map Prod.fst →
      (withApis B (withApis A s0)).apis.find? (fun p => p.1 == r) =
        B.find? (fun p => p.1 == r)) := by
  have happly : (withApis B (withApis A s0)).apis =
      ((s0.apis.filter fun p => !((A.map Prod.fst).contains p.1)) ++ A).filter
          (fun p => !((B.map Prod.fst).contains p.1)) ++ B := rfl
  refine ⟨?_, ?_, ?_, ?_, ?_⟩
  · intro p hp hc
    rw [happly] at hp
    rcases List.mem_append.1 hp with h | h
    · have := (List.mem_filter.1 h).2
      rw [hc] at this
      exact absurd this (by simp)
    · exact h
  · have e1 : ((s0.apis.filter fun p => !((A.map Prod.fst).contains p.1)).filter
        (fun p => !((B.map Prod.fst).contains p.1))).filter
          (fun p => (A.map Prod.fst).contains p.1 &&
            !((B.map Prod.fst).contains p.1)) = [] := by
      rw [List.filter_eq_nil_iff]
      intro p hp
      have h1 := (List.mem_filter.1 ((List.mem_filter.1 hp).1)).2
      cases hA : (A.map Prod.fst).contains p.1 <;> simp_all
    have e2 : (A.filter fun p => !((B.map Prod.fst).contains p.1)).filter
        (fun p => (A.map Prod.fst).contains p.1 &&
          !((B.map Prod.fst).contains p.1)) =
        A.filter fun p => !((B.map Prod.fst).contains p.1) := by
      refine List.filter_eq_self.2 ?_
      intro p hp
      have hmem : (A.map Prod.fst).contains p.1 = true :=
        List.elem_eq_true_of_mem (List.mem_map_of_mem Prod.fst (List.mem_filter.1 hp).1)
      have hf := (List.mem_filter.1 hp).2
      simp_all
    have e3 : B.filter (fun p => (A.map Prod.fst).contains p.1 &&
        !((B.map Prod.fst).contains p.1)) = [] := by
      rw [List.filter_eq_nil_iff]
      intro p hp
      have hc : (B.map Prod.fst).contains p.1 = true :=
        List.elem_eq_true_of_mem (List.mem_map_of_mem Prod.fst hp)
      intro hcontra
      rw [hc] at hcontra
      simp at hcontra
    rw [happly, List.filter_append, List.filter_append, List.filter_append,
      e1, e2, e3]
    simp
  · exact ⟨_, happly⟩
  · intro h
    rw [happly, h]
    simp
  · intro r hr
    rw [happly]
    refine find?_append_none _ _ _ ?_
    rw [List.find?_eq_none]
    intro p hp hbeq
    have hkey : p.1 = r := by simpa using hbeq
    have hfp := (List.mem_filter.1 hp).2
    rw [hkey] at hfp
    have : (B.map Prod.fst).contains r = true := List.elem_eq_true_of_mem hr
    rw [this] at hfp
    exact absurd hfp (by simp)

/-- C4 witness: from the fresh empty api list, registering refs `1, 2` and
then refs `2, 3` keeps ref `1`'s first stub, replaces ref `2`'s stub with
the second registration, and appends ref `3`'s. -/
theorem c4_witness :
    (withApis [(2, 21), (3, 30)] (withApis [(1, 10), (2, 20)] defaultOptions)).apis =
      [(1, 10), (2, 21), (3, 30)] ∧
    ((2, 21) : ApiRef × ApiImpl) ∈ ([(2, 21), (3, 30)] : Apis) := by
  have h := c4_with_apis_last_write_wins defaultOptions [(1, 10), (2, 20)] [(2, 21), (3, 30)]
  have hshape := h.2.2.2.1 rfl
  refine ⟨hshape.trans (by decide), h.1 (2, 21) ?_ (by decide)⟩
  rw [hshape]
  decide

/-- C5 counterexample: for a builder on which `withMetadata` was never
called, `build()` registers the metadata hook value `{}` - the initial
empty (truthy) metadata object - and not the default page metadata, because
`this.options.metadata || {...defaultMetadata}` only falls back on a falsy
value. -/
theorem c5_counterexample :
    (build defaultOptions []).techDocsMetadata.value = ({} : PageMetadata) ∧
    ({} : PageMetadata) ≠ defaultMetadata :=
  ⟨rfl, by decide⟩

/-- C5 (amended): with the metadata option still the initial empty object
(`withMetadata` never called), `build()` registers
`{loading: false, error: undefined, value: {}}`; the default page metadata
(site name and description `Tech Docs`) is substituted only when the stored
metadata is falsy, e.g. after `withMetadata(null)`. -/
theorem c5_metadata_default_only_when_falsy (o : TechDocsAddonBuilderOptions)
    (ad : List ReactElement) (h : o.metadata = defaultOptions.metadata) :
    (build o ad).techDocsMetadata =
      { loading := false, error := none, value := {} } ∧
    (build (withMetadata none o) ad).techDocsMetadata =
      { loading := false, error := none, value := defaultMetadata } := by
  constructor
  · show ({ loading := false, error := none
          , value := techDocsMetadataValue o.metadata } : HookResult PageMetadata) = _
    rw [h]
    rfl
  · rfl

/-- C5 witness: the fresh builder options at build time. -/
theorem c5_witness :
    (build defaultOptions []).techDocsMetadata =
      { loading := false, error := none, value := {} } ∧
    (build (withMetadata none defaultOptions) []).techDocsMetadata =
      { loading := false, error := none, value := defaultMetadata } :=
  c5_metadata_default_only_when_falsy defaultOptions [] rfl

/-- C6: `atPath` is idempotent in its last value: on any builder in any
module state, `atPath(p1)` followed by `atPath(p2)` leaves the module state
- and hence the outcome of `build()`, route-param mock included - exactly
as `atPath(p2)` alone does. -/
theorem c6_at_path_last_value_wins (b : Builder) (w : World) (p1 p2 : String) :
    atPathW b p2 (atPathW b p1 w) = atPathW b p2 w ∧
    buildW b (atPathW b p2 (atPathW b p1 w)) = buildW b (atPathW b p2 w) := by
  have hstate : atPathW b p2 (atPathW b p1 w) = atPathW b p2 w := by
    show ({ w with store := (updateAt (updateAt w.store b.optionsRef (atPath p1))
                b.optionsRef (atPath p2)) } : World) = _
    rw [updateAt_updateAt]
    rfl
  exact ⟨hstate, congrArg (buildW b) hstate⟩

/-- C7: after `build()`, the route-param mock holds exactly the resolved
entity triple plus the wildcard key `'*'` bound to the configured path; for
a builder constructed in the fresh module state with `atPath` never called,
the wildcard is bound to `""`. -/
theorem c7_route_params_exact (b : Builder) (w : World) (ad : List ReactElement) :
    (buildW b w).2.mocks.params =
      some { «namespace» := (entityName (w.getOptions b).entity).«namespace»
           , kind := (entityName (w.getOptions b).entity).kind
           , name := (entityName (w.getOptions b).entity).name
           , star := (w.getOptions b).path } ∧
    (buildW (buildAddonsInTechDocs ad) World.init).2.mocks.params =
      some { «namespace» := "default", kind := "Component", name := "docs"
           , star := "" } :=
  ⟨rfl, rfl⟩

/-- C8: `build()` wraps each addon in a `Fragment` keyed by its position and
keeps the input order: the children of the addon container map back to the
input addon list itself (duplicates included, no deduplication) and their
keys are `0, 1, ..., n-1` in order. -/
theorem c8_addons_ordered_and_keyed_by_index (o : TechDocsAddonBuilderOptions)
    (ad : List ReactElement) :
    (build o ad).tree.addonChildren.map KeyedFragment.child = ad ∧
    (build o ad).tree.addonChildren.map KeyedFragment.key = List.range ad.length := by
  constructor
  · have h : KeyedFragment.child ∘
        (fun p : Nat × ReactElement => KeyedFragment.mk p.1 p.2) = Prod.snd := rfl
    simp only [build, List.map_map, h, List.enum_map_snd]
  · have h : KeyedFragment.key ∘
        (fun p : Nat × ReactElement => KeyedFragment.mk p.1 p.2) = Prod.fst := rfl
    simp only [build, List.map_map, h, List.enum_map_fst]

/-- C9: `build()` does not write the stored options, and the api list it
embeds in the returned tree is a snapshot: a later `withApis` that changes
the stored api list leaves the built tree's apis as they were at build
time. -/
theorem c9_build_takes_apis_snapshot (b : Builder) (w : World) (A : Apis)
    (href : b.optionsRef < w.store.length)
    (hch : (withApis A (w.getOptions b)).apis ≠ (w.getOptions b).apis) :
    (buildW b w).2.store = w.store ∧
    (buildW b w).1.tree.apis = (w.getOptions b).apis ∧
    ((withApisW b A (buildW b w).2).getOptions b).apis ≠ (buildW b w).1.tree.apis := by
  refine ⟨rfl, rfl, ?_⟩
  have hopt : (withApisW b A (buildW b w).2).getOptions b =
      withApis A (w.getOptions b) := by
    show (updateAt (buildW b w).2.store b.optionsRef (withApis A)).getD
        b.optionsRef defaultOptions = _
    have hs : (buildW b w).2.store = w.store := rfl
    rw [hs, getD_updateAt _ _ _ _ href]
    rfl
  rw [hopt]
  exact hch

/-- C9 witness: in the fresh module state, building and then registering the
api pair `(1, 10)` changes the stored api list to `[(1, 10)]` while the
built tree still holds the empty snapshot. -/
theorem c9_witness :
    (buildW (buildAddonsInTechDocs []) World.init).2.store = World.init.store ∧
    (buildW (buildAddonsInTechDocs []) World.init).1.tree.apis =
      (World.init.getOptions (buildAddonsInTechDocs [])).apis ∧
    ((withApisW (buildAddonsInTechDocs []) [(1, 10)]
        (buildW (buildAddonsInTechDocs []) World.init).2).getOptions
          (buildAddonsInTechDocs [])).apis ≠
      (buildW (buildAddonsInTechDocs []) World.init).1.tree.apis :=
  c9_build_takes_apis_snapshot (buildAddonsInTechDocs []) World.init [(1, 10)]
    (by decide) (by decide)

/-- C10: the entity-identity fallback fires on any falsy field value, not
only on absent fields: a `namespace`, `kind` or `name` that is present but
equal to the empty string resolves to its default (`"default"`,
`"Component"`, `"docs"` respectively), not to `""`. -/
theorem c10_empty_string_field_falls_back (e : Entity) :
    (e.metadata.bind EntityMeta.«namespace» = some "" →
      (entityName (some e)).«namespace» = "default") ∧
    (e.kind = some "" → (entityName (some e)).kind = "Component") ∧
    (e.metadata.bind EntityMeta.name = some "" →
      (entityName (some e)).name = "docs") := by
  refine ⟨fun h => ?_, fun h => ?_, fun h => ?_⟩
  · show jsOrStr (e.metadata.bind EntityMeta.«namespace») "default" = "default"
    rw [h]
    exact jsOrStr_empty _
  · show jsOrStr e.kind "Component" = "Component"
    rw [h]
    exact jsOrStr_empty _
  · show jsOrStr (e.metadata.bind EntityMeta.name) "docs" = "docs"
    rw [h]
    exact jsOrStr_empty _

/-- C10 witness: the entity supplying `""` for all three fields resolves to
the full default triple. -/
theorem c10_witness :
    (entityName (some (Entity.mk (some "")
        (some (EntityMeta.mk (some "") (some "")))))).«namespace» = "default" ∧
    (entityName (some (Entity.mk (some "")
        (some (EntityMeta.mk (some "") (some "")))))).kind = "Component" ∧
    (entityName (some (Entity.mk (some "")
        (some (EntityMeta.mk (some "") (some "")))))).name = "docs" :=
  ⟨(c10_empty_string_field_falls_back _).1 rfl,
   (c10_empty_string_field_falls_back _).2.1 rfl,
   (c10_empty_string_field_falls_back _).2.2 rfl⟩

end TechDocsTestUtils
